import Mathlib

/-!
Shallow embedding of the pdfMapperExcel field-mapping / batch-generation
code: src/project/src/App.tsx, src/project/src/components/PDFViewer.tsx,
the older variant src/unnamed/part_000, and the type declarations in
src/unnamed/part_001; followed by theorems settling the specification's
claims about it. JS numbers in spreadsheet cells are modelled as integers
and geometric quantities as exact rationals.
-/

namespace PdfMapper

/-- Scalar cell values of a spreadsheet row (`string | number` in the
`ExcelData` interface of src/unnamed/part_001); numbers modelled as integers. -/
inductive Scalar where
  | str (s : String)
  | num (n : Int)
  deriving DecidableEq, Repr

/-- JS truthiness of a scalar: the empty string and the number 0 are falsy. -/
def truthy : Scalar → Bool
  | .str s => !s.isEmpty
  | .num n => n != 0

/-- JS `String(x)` applied to a possibly-undefined scalar. -/
def jsString : Option Scalar → String
  | none => "undefined"
  | some (.str s) => s
  | some (.num n) => toString n

/-- JS `a || b` where `a` is a possibly-undefined scalar. -/
def jsOr (a : Option Scalar) (b : Scalar) : Scalar :=
  match a with
  | some v => if truthy v then v else b
  | none => b

/-- One spreadsheet row: an ordered association of column names to scalars
(the open `ExcelData` index signature). -/
abbrev Row := List (String × Scalar)

/-- JS property lookup `row[field]`: the first binding of the key, or undefined. -/
def lookupField : Row → String → Option Scalar
  | [], _ => none
  | (k, v) :: rest, f => if k = f then some v else lookupField rest f

/-- Value resolution exactly as `generatePDFs` computes it:
`String(row[mapping.field] || "")` (src/project/src/App.tsx line 95,
src/unnamed/part_000 line 87). -/
def resolveValue (row : Row) (f : String) : String :=
  jsString (some (jsOr (lookupField row f) (.str "")))

/-- Value resolution as the amended claim words it: a present field with a
truthy value renders as `String(value)`; an absent field, or a present falsy
value (empty string or the number 0), renders as the empty string. -/
def resolveValueSpec (row : Row) (f : String) : String :=
  match lookupField row f with
  | none => ""
  | some v => if truthy v then jsString (some v) else ""

/-- The `FieldMapping` record of src/unnamed/part_001:
`{ x, y, field, page }` with `page` 1-based. -/
structure FieldMapping where
  x : ℚ
  y : ℚ
  field : String
  page : Int
  deriving DecidableEq, Repr

/-- JS array indexing `arr[i]`: out-of-range (including negative) is undefined. -/
def getAt (l : List α) (i : Int) : Option α :=
  if i < 0 then none else l[i.toNat]?

/-- One text stamp drawn onto an output document (`page.drawText` call):
the 0-based page index it targets, the text, position and font size. -/
structure DrawOp where
  page : Int
  text : String
  x : ℚ
  y : ℚ
  size : ℚ
  deriving DecidableEq, Repr

/-- Stamping of one mapping for one row (src/project/src/App.tsx lines
88-106): resolve the target page by 1-based index, skip if absent, else draw
the resolved value centered on `x` (subtracting half the text width at size
10) at `height - y - 5`. `widthOf` stands for the embedded font's
`widthOfTextAtSize`. -/
def stampMapping (widthOf : String → ℚ → ℚ) (pages : List ℚ) (row : Row)
    (m : FieldMapping) : Option DrawOp :=
  match getAt pages (m.page - 1) with
  | none => none
  | some height =>
    let value := resolveValue row m.field
    let textWidth := widthOf value 10
    some { page := m.page - 1, text := value, x := m.x - textWidth / 2,
           y := height - m.y - 5, size := 10 }

/-- Stamping of one mapping in the older variant (src/unnamed/part_000 lines
81-94): same page resolution and vertical flip, but left-aligned at `x`. -/
def stampMappingLegacy (pages : List ℚ) (row : Row) (m : FieldMapping) :
    Option DrawOp :=
  match getAt pages (m.page - 1) with
  | none => none
  | some height =>
    some { page := m.page - 1, text := resolveValue row m.field, x := m.x,
           y := height - m.y - 5, size := 10 }

/-- Per-row draw sequence of src/project/src/App.tsx: each mapping stamped
once, in mapping order (the single `Promise.all(mappings.map ...)`). -/
def rowDraws (widthOf : String → ℚ → ℚ) (pages : List ℚ) (row : Row)
    (mappings : List FieldMapping) : List DrawOp :=
  mappings.filterMap (stampMapping widthOf pages row)

/-- Per-row draw sequence of the older variant (src/unnamed/part_000 lines
79-115): a fire-and-forget `forEach` pass followed by an awaited
`Promise.all` pass, each of which draws every mapping once. -/
def legacyRowDraws (pages : List ℚ) (row : Row)
    (mappings : List FieldMapping) : List DrawOp :=
  mappings.filterMap (stampMappingLegacy pages row)
    ++ mappings.filterMap (stampMappingLegacy pages row)

/-- Console warnings recorded while stamping a row: one `Page p not found`
entry per mapping whose 1-based page resolves to no page. -/
def rowWarnings (pages : List ℚ) (mappings : List FieldMapping) : List String :=
  mappings.filterMap (fun m =>
    match getAt pages (m.page - 1) with
    | none => some ("Page " ++ toString m.page ++ " not found")
    | some _ => none)

/-- Filename composition from src/project/src/App.tsx lines 116-124: keep the
truthy (non-empty) values (`.filter(Boolean)`); if any remain, join them with
"-" after the base, else just `base + ".pdf"`. -/
def composeFilename (base : String) (values : List String) : String :=
  let fieldValues := values.filter (fun v => !v.isEmpty)
  if fieldValues.length > 0 then
    base ++ "-" ++ String.intercalate "-" fieldValues ++ ".pdf"
  else
    base ++ ".pdf"

/-- Filename composition as the specification words it: discard empty
strings; if the remaining values are non-empty the result is
`base + "-" + join(values, "-") + ".pdf"`, otherwise `base + ".pdf"` exactly. -/
def composeFilenameSpec (base : String) (values : List String) : String :=
  let kept := values.filter (fun v => v ≠ "")
  if kept = [] then base ++ ".pdf"
  else base ++ "-" ++ String.intercalate "-" kept ++ ".pdf"

/-- Everything `generatePDFs` reads from component state: template (page
heights, none when no PDF is uploaded), rows, mappings, the custom filename
box, the spreadsheet filename with its extension stripped (empty when no
spreadsheet), and the selected filename fields. -/
structure PipelineInput where
  template : Option (List ℚ)
  rows : List Row
  mappings : List FieldMapping
  customFilename : String
  excelBaseName : String
  filenameFields : List String

/-- Base output filename:
`customFilename || excelFile?.name.replace(...) || ""` (line 112-113). -/
def baseFilename (inp : PipelineInput) : String :=
  if inp.customFilename.isEmpty then inp.excelBaseName else inp.customFilename

/-- Values pulled from the current row for the filename:
`selectedFilenameFields.map((field) => String(row[field] || ""))`. -/
def rowFilenameValues (row : Row) (fields : List String) : List String :=
  fields.map (resolveValue row)

/-- One generated output document: the copied template pages, the stamps
drawn onto them, and the composed filename. -/
structure GeneratedDoc where
  pages : List ℚ
  draws : List DrawOp
  filename : String
  deriving DecidableEq, Repr

/-- Generation of one row's document (body of the `for (const row of
excelData)` loop in src/project/src/App.tsx): copy every template page,
stamp every mapping once, compose the filename from this row's values. -/
def generateRow (widthOf : String → ℚ → ℚ) (tpl : List ℚ)
    (mappings : List FieldMapping) (base : String) (fields : List String)
    (row : Row) : GeneratedDoc :=
  { pages := tpl
    draws := rowDraws widthOf tpl row mappings
    filename := composeFilename base (rowFilenameValues row fields) }

/-- Observable outcome of one `generatePDFs` invocation: the documents handed
to the download sink and which external effects ran. -/
structure RunOutcome where
  outputs : List GeneratedDoc
  fontFetchAttempted : Bool
  templateLoadAttempted : Bool
  alerted : Bool
  deriving DecidableEq, Repr

/-- The batch pipeline of src/project/src/App.tsx. The guard (line 50)
returns at once when there is no template, no rows or no mappings, before
any effect. The font fetch and the template decode happen once, before the
row loop; a failure of either is caught by the surrounding try/catch, which
alerts with nothing yet pushed to the download list. Otherwise every row
yields one document and the completed list is handed to the download loop.
`fontOk` and `decodeOk` model the outcomes of the two fallible external
steps. -/
def generatePDFs (widthOf : String → ℚ → ℚ) (inp : PipelineInput)
    (fontOk decodeOk : Bool) : RunOutcome :=
  match inp.template with
  | none =>
    { outputs := [], fontFetchAttempted := false,
      templateLoadAttempted := false, alerted := false }
  | some tpl =>
    if inp.rows.isEmpty || inp.mappings.isEmpty then
      { outputs := [], fontFetchAttempted := false,
        templateLoadAttempted := false, alerted := false }
    else if !fontOk then
      { outputs := [], fontFetchAttempted := true,
        templateLoadAttempted := false, alerted := true }
    else if !decodeOk then
      { outputs := [], fontFetchAttempted := true,
        templateLoadAttempted := true, alerted := true }
    else
      { outputs := inp.rows.map
          (generateRow widthOf tpl inp.mappings (baseFilename inp)
            inp.filenameFields)
        fontFetchAttempted := true, templateLoadAttempted := true,
        alerted := false }

/-- Pointer-to-document conversion of the Coordinate Mapper
(`handleCanvasClick` / `handleMouseMove` in PDFViewer.tsx):
`Math.round((client - rectLeft) / scale)`. -/
def toDocumentCoord (p : ℚ) (s : ℚ) : Int := round (p / s)

/-- Document-to-raster conversion for overlay placement (PDFViewer.tsx
overlay style `left: mapping.x * scale`). -/
def toRasterCoord (x : ℚ) (s : ℚ) : ℚ := x * s

/-- Registry append (`handleAddMapping`: `[...mappings, mapping]`). -/
def addMapping (l : List FieldMapping) (m : FieldMapping) : List FieldMapping :=
  l ++ [m]

/-- Registry remove-last (`handleRemoveLastMapping`: `mappings.slice(0, -1)`). -/
def removeLastMapping (l : List FieldMapping) : List FieldMapping :=
  l.dropLast

/-- Demonstration font metric: each character is `size/10 * 10` units wide
(any concrete metric serves to instantiate the theorems). -/
def widthDemo : String → ℚ → ℚ := fun s sz => sz * s.length

/-- Demonstration row from the specification's scenario:
`{Name: "Somchai", Amount: 500}`. -/
def rowSomchai : Row := [("Name", Scalar.str "Somchai"), ("Amount", Scalar.num 500)]

/-- A second demonstration row. -/
def rowPreecha : Row := [("Name", Scalar.str "Preecha"), ("Amount", Scalar.num 700)]

/-- Demonstration mapping from the specification's scenario:
`{page:1, x:100, y:50, field:"Amount"}`. -/
def mappingAmount : FieldMapping := { x := 100, y := 50, field := "Amount", page := 1 }

/-- Demonstration mapping on page 1 for the Name column. -/
def mappingName : FieldMapping := { x := 10, y := 10, field := "Name", page := 1 }

/-- Demonstration mapping whose page (3) exceeds the demonstration
template's page count, as in the specification's missing-page scenario. -/
def mappingPage3 : FieldMapping := { x := 10, y := 10, field := "Name", page := 3 }

/-- Demonstration pipeline input: one-page template, two rows, one mapping. -/
def inpDemo : PipelineInput :=
  { template := some [800], rows := [rowSomchai, rowPreecha],
    mappings := [mappingAmount], customFilename := "invoice",
    excelBaseName := "data", filenameFields := ["Name"] }

/-- Demonstration pipeline input with a two-page template and one mapping
addressing the nonexistent page 3. -/
def inpDemoBadPage : PipelineInput :=
  { template := some [800, 600], rows := [rowSomchai],
    mappings := [mappingName, mappingPage3], customFilename := "invoice",
    excelBaseName := "data", filenameFields := ["Name"] }

/-- Demonstration pipeline input on which the guard fires: nothing uploaded. -/
def inpEmpty : PipelineInput :=
  { template := none, rows := [], mappings := [], customFilename := "",
    excelBaseName := "", filenameFields := [] }

/-- The draw the older variant produces for `mappingName` on the one-page
800-high template with `rowSomchai` (left-aligned, flipped y). -/
def demoDrawLegacy : DrawOp :=
  { page := 0, text := "Somchai", x := 10, y := 800 - 10 - 5, size := 10 }

/-- Auxiliary: filtering a list by the very predicate that decides whether
`f` succeeds does not change `filterMap f`. -/
theorem filterMap_filter_isSome {α β : Type} (f : α → Option β) (p : α → Bool)
    (hfp : ∀ a, (f a).isSome = p a) :
    ∀ l : List α, (l.filter p).filterMap f = l.filterMap f := by
  intro l
  induction l with
  | nil => rfl
  | cons a t ih =>
    cases hfa : f a with
    | none =>
      have hpa : p a = false := by rw [← hfp a, hfa]; rfl
      simp [List.filter_cons, hpa, List.filterMap_cons, hfa, ih]
    | some b =>
      have hpa : p a = true := by rw [← hfp a, hfa]; rfl
      simp [List.filter_cons, hpa, List.filterMap_cons, hfa, ih]

/-- Auxiliary: a mapping produces a draw exactly when its page exists. -/
theorem stampMapping_isSome (widthOf : String → ℚ → ℚ) (pages : List ℚ)
    (row : Row) (m : FieldMapping) :
    (stampMapping widthOf pages row m).isSome
      = (getAt pages (m.page - 1)).isSome := by
  unfold stampMapping
  cases getAt pages (m.page - 1) <;> rfl

/-- Auxiliary: the pipeline's output list once the guard passes and both
external steps succeed. -/
theorem generatePDFs_outputs_eq (widthOf : String → ℚ → ℚ)
    (inp : PipelineInput) (tpl : List ℚ) (hT : inp.template = some tpl)
    (hM : inp.mappings ≠ []) :
    (generatePDFs widthOf inp true true).outputs
      = inp.rows.map (generateRow widthOf tpl inp.mappings (baseFilename inp)
          inp.filenameFields) := by
  have hM' : inp.mappings.isEmpty = false := by
    simpa [List.isEmpty_iff] using hM
  by_cases hR : inp.rows = []
  · simp [generatePDFs, hT, hR, hM']
  · have hR' : inp.rows.isEmpty = false := by
      simpa [List.isEmpty_iff] using hR
    simp [generatePDFs, hT, hR', hM']

/-- C1: with a template and a non-empty mapping set, and both external steps
succeeding, the pipeline hands the sink exactly one output document per data
row, the i-th output generated from the i-th row, so output order equals
source row order. -/
theorem claim_C1_batch_count_order (widthOf : String → ℚ → ℚ)
    (inp : PipelineInput) (tpl : List ℚ) (hT : inp.template = some tpl)
    (hM : inp.mappings ≠ []) :
    (generatePDFs widthOf inp true true).outputs
      = inp.rows.map (generateRow widthOf tpl inp.mappings (baseFilename inp)
          inp.filenameFields) ∧
    (generatePDFs widthOf inp true true).outputs.length = inp.rows.length := by
  have h := generatePDFs_outputs_eq widthOf inp tpl hT hM
  exact ⟨h, by rw [h, List.length_map]⟩

/-- C1 witness: the two-row demonstration input yields two documents in row
order. -/
theorem claim_C1_witness :
    inpDemo.template = some [800] ∧ inpDemo.mappings ≠ [] ∧
    ((generatePDFs widthDemo inpDemo true true).outputs
        = inpDemo.rows.map (generateRow widthDemo [800] inpDemo.mappings
            (baseFilename inpDemo) inpDemo.filenameFields) ∧
      (generatePDFs widthDemo inpDemo true true).outputs.length
        = inpDemo.rows.length) :=
  ⟨rfl, by simp [inpDemo],
    claim_C1_batch_count_order widthDemo inpDemo [800] rfl (by simp [inpDemo])⟩

/-- C9: removing last after an append returns the original registry, on a
non-empty registry the size drops by exactly one, and remove-last on the
empty registry is a no-op. -/
theorem claim_C9_remove_last (l : List FieldMapping) (m : FieldMapping)
    (hl : l ≠ []) :
    removeLastMapping (addMapping l m) = l ∧
    (removeLastMapping l).length + 1 = l.length ∧
    removeLastMapping ([] : List FieldMapping) = [] := by
  refine ⟨?_, ?_, rfl⟩
  · simp [removeLastMapping, addMapping]
  · have hpos : 0 < l.length := List.length_pos.mpr hl
    simp only [removeLastMapping, List.length_dropLast]
    omega

/-- C9 witness: a one-element registry. -/
theorem claim_C9_witness :
    ([mappingName] : List FieldMapping) ≠ [] ∧
    (removeLastMapping (addMapping [mappingName] mappingAmount) = [mappingName] ∧
     (removeLastMapping [mappingName]).length + 1
        = ([mappingName] : List FieldMapping).length ∧
     removeLastMapping ([] : List FieldMapping) = []) :=
  ⟨List.cons_ne_nil mappingName [],
    claim_C9_remove_last [mappingName] mappingAmount
      (List.cons_ne_nil mappingName [])⟩

/-- C10: with no template, no rows, or no mappings the pipeline returns at
once: no outputs, no font fetch, no template load, no alert. -/
theorem claim_C10_early_return (widthOf : String → ℚ → ℚ)
    (inp : PipelineInput) (fontOk decodeOk : Bool)
    (h : inp.template = none ∨ inp.rows = [] ∨ inp.mappings = []) :
    generatePDFs widthOf inp fontOk decodeOk
      = { outputs := [], fontFetchAttempted := false,
          templateLoadAttempted := false, alerted := false } := by
  rcases h with h | h | h
  · simp [generatePDFs, h]
  · cases ht : inp.template with
    | none => simp [generatePDFs, ht]
    | some tpl => simp [generatePDFs, ht, h]
  · cases ht : inp.template with
    | none => simp [generatePDFs, ht]
    | some tpl => simp [generatePDFs, ht, h]

/-- C10 witness: the all-empty input. -/
theorem claim_C10_witness :
    (inpEmpty.template = none ∨ inpEmpty.rows = [] ∨ inpEmpty.mappings = []) ∧
    generatePDFs widthDemo inpEmpty true true
      = { outputs := [], fontFetchAttempted := false,
          templateLoadAttempted := false, alerted := false } :=
  ⟨Or.inl rfl, claim_C10_early_return widthDemo inpEmpty true true (Or.inl rfl)⟩

/-- C2: for every base string and ordered value sequence, the code's filename
composition agrees with the specification's: discard empty strings; if values
remain the result is base + "-" + join(values, "-") + ".pdf", otherwise
base + ".pdf" exactly. -/
theorem claim_C2_compose_filename (base : String) (values : List String) :
    composeFilename base values = composeFilenameSpec base values := by
  have hf : values.filter (fun v => !v.isEmpty)
      = values.filter (fun v => v ≠ "") := by
    apply List.filter_congr
    intro a _
    by_cases h : a = ""
    · subst h; decide
    · have ha : a.isEmpty = false := by
        rw [Bool.eq_false_iff]
        intro hb
        exact h ((String.isEmpty_iff a).mp hb)
      simp [ha, h]
  unfold composeFilename composeFilenameSpec
  rw [hf]
  by_cases hk : values.filter (fun v => v ≠ "") = []
  · have hlen : ¬ 0 < (values.filter (fun v => v ≠ "")).length := by
      rw [hk]; simp
    rw [if_neg hlen, if_pos hk]
  · have hlen : 0 < (values.filter (fun v => v ≠ "")).length :=
      List.length_pos.mpr hk
    rw [if_pos hlen, if_neg hk]

/-- C3 counterexample: in the row `{Amount: 0}` the field "Amount" is
present and `String(row["Amount"])` is "0", yet the stamped text is "" —
the claim's existing-field clause fails on present falsy values, because the
code resolves through `row[field] || ""`. -/
theorem claim_C3_counterexample :
    lookupField [("Amount", Scalar.num 0)] "Amount" = some (Scalar.num 0) ∧
    jsString (some (Scalar.num 0)) = "0" ∧
    resolveValue [("Amount", Scalar.num 0)] "Amount" = "" ∧
    (∃ d : DrawOp, stampMapping widthDemo [800] [("Amount", Scalar.num 0)]
        mappingAmount = some d ∧ d.text = "" ∧ d.text ≠ "0") :=
  ⟨rfl, rfl, rfl,
    ⟨{ page := 0, text := "", x := 100 - widthDemo "" 10 / 2,
       y := 800 - 50 - 5, size := 10 }, rfl, rfl, by decide⟩⟩

/-- C3 (amended): the stamped value follows JS truthiness — a present field
with a truthy value is stamped as `String(row[field])`; an absent field, or
a present falsy value (empty string or the number 0), is stamped as the
empty string, never the literal "undefined" or "null". -/
theorem claim_C3_value_resolution (row : Row) (f : String) :
    resolveValue row f = resolveValueSpec row f := by
  unfold resolveValue resolveValueSpec jsOr
  cases h : lookupField row f with
  | none => rfl
  | some v =>
    by_cases ht : truthy v
    · simp [ht]
    · simp [ht, jsString]

/-- C4: whenever a mapping's page exists with height h, the stamp is
horizontally centered on the stored x (drawn x = x − width(value, 10)/2
using the embedded font's metric) and the drawn y is h − stored_y − 5. -/
theorem claim_C4_stamp_position (widthOf : String → ℚ → ℚ) (pages : List ℚ)
    (row : Row) (m : FieldMapping) (h : ℚ)
    (hp : getAt pages (m.page - 1) = some h) :
    stampMapping widthOf pages row m
      = some { page := m.page - 1, text := resolveValue row m.field,
               x := m.x - widthOf (resolveValue row m.field) 10 / 2,
               y := h - m.y - 5, size := 10 } := by
  unfold stampMapping
  rw [hp]

/-- C4 witness: the specification's scenario — row
`{Name: "Somchai", Amount: 500}`, mapping `{page:1, x:100, y:50,
field:"Amount"}`, with the demonstration metric width("500") = 30, is
stamped at x = 100 − 30/2 = 85. -/
theorem claim_C4_witness :
    getAt [800] (mappingAmount.page - 1) = some 800 ∧
    stampMapping widthDemo [800] rowSomchai mappingAmount
      = some { page := mappingAmount.page - 1,
               text := resolveValue rowSomchai mappingAmount.field,
               x := mappingAmount.x
                 - widthDemo (resolveValue rowSomchai mappingAmount.field) 10 / 2,
               y := 800 - mappingAmount.y - 5, size := 10 } ∧
    resolveValue rowSomchai mappingAmount.field = "500" ∧
    mappingAmount.x
      - widthDemo (resolveValue rowSomchai mappingAmount.field) 10 / 2 = 85 :=
  ⟨rfl,
    claim_C4_stamp_position widthDemo [800] rowSomchai mappingAmount 800 rfl,
    by decide,
    by
      have hlen : (resolveValue rowSomchai "Amount").length = 3 := by decide
      simp only [widthDemo, mappingAmount]
      rw [hlen]
      norm_num⟩

/-- C5: a mapping whose 1-based page does not exist is skipped for every
row, a "Page p not found" warning is recorded, every row still yields an
output document, and the outputs equal those of a run over only the
valid-page mappings — the row and the batch are not aborted. -/
theorem claim_C5_missing_page (widthOf : String → ℚ → ℚ) (inp : PipelineInput)
    (tpl : List ℚ) (m : FieldMapping) (hT : inp.template = some tpl)
    (hm : m ∈ inp.mappings) (hpage : getAt tpl (m.page - 1) = none)
    (hM : inp.mappings ≠ []) :
    (∀ row : Row, stampMapping widthOf tpl row m = none) ∧
    ("Page " ++ toString m.page ++ " not found") ∈ rowWarnings tpl inp.mappings ∧
    (generatePDFs widthOf inp true true).outputs.length = inp.rows.length ∧
    (generatePDFs widthOf inp true true).outputs
      = inp.rows.map (generateRow widthOf tpl
          (inp.mappings.filter (fun x => (getAt tpl (x.page - 1)).isSome))
          (baseFilename inp) inp.filenameFields) := by
  have hskip : ∀ row : Row, stampMapping widthOf tpl row m = none := by
    intro row
    unfold stampMapping
    rw [hpage]
  have hout := generatePDFs_outputs_eq widthOf inp tpl hT hM
  refine ⟨hskip, ?_, ?_, ?_⟩
  · exact List.mem_filterMap.mpr ⟨m, hm, by rw [hpage]⟩
  · rw [hout, List.length_map]
  · rw [hout]
    have hfun : generateRow widthOf tpl inp.mappings (baseFilename inp)
          inp.filenameFields
        = generateRow widthOf tpl
            (inp.mappings.filter (fun x => (getAt tpl (x.page - 1)).isSome))
            (baseFilename inp) inp.filenameFields := by
      funext row
      unfold generateRow rowDraws
      rw [filterMap_filter_isSome (stampMapping widthOf tpl row)
            (fun x => (getAt tpl (x.page - 1)).isSome)
            (fun a => stampMapping_isSome widthOf tpl row a)]
    rw [hfun]

/-- C5 witness: a two-page template with a mapping addressing page 3. -/
theorem claim_C5_witness :
    inpDemoBadPage.template = some [800, 600] ∧
    mappingPage3 ∈ inpDemoBadPage.mappings ∧
    getAt [800, 600] (mappingPage3.page - 1) = none ∧
    ((∀ row : Row, stampMapping widthDemo [800, 600] row mappingPage3 = none) ∧
     ("Page " ++ toString mappingPage3.page ++ " not found")
        ∈ rowWarnings [800, 600] inpDemoBadPage.mappings ∧
     (generatePDFs widthDemo inpDemoBadPage true true).outputs.length
        = inpDemoBadPage.rows.length ∧
     (generatePDFs widthDemo inpDemoBadPage true true).outputs
        = inpDemoBadPage.rows.map (generateRow widthDemo [800, 600]
            (inpDemoBadPage.mappings.filter
              (fun x => (getAt [800, 600] (x.page - 1)).isSome))
            (baseFilename inpDemoBadPage) inpDemoBadPage.filenameFields)) :=
  ⟨rfl, List.Mem.tail _ (List.Mem.head _), rfl,
    claim_C5_missing_page widthDemo inpDemoBadPage [800, 600] mappingPage3 rfl
      (List.Mem.tail _ (List.Mem.head _)) rfl (by simp [inpDemoBadPage])⟩

/-- C6: the older variant (src/unnamed/part_000) invokes the per-mapping
draw twice per row — one mapping on a one-page template yields two identical
draws — while the current variant (src/project/src/App.tsx) draws it exactly
once; the claim holds of the current path but the repository's older path
violates it, which the specification itself flags as a defect. -/
theorem claim_C6_double_draw :
    legacyRowDraws [800] rowSomchai [mappingName]
      = [demoDrawLegacy, demoDrawLegacy] ∧
    (legacyRowDraws [800] rowSomchai [mappingName]).length = 2 ∧
    rowDraws widthDemo [800] rowSomchai [mappingName]
      = [{ page := 0, text := "Somchai",
           x := 10 - widthDemo "Somchai" 10 / 2, y := 800 - 10 - 5,
           size := 10 }] ∧
    (rowDraws widthDemo [800] rowSomchai [mappingName]).length = 1 :=
  ⟨rfl, rfl, rfl, rfl⟩

/-- C7: if the font fetch or the template decode fails, the run aborts with
a user-visible alert and nothing is handed to the sink; a fully successful
run delivers one document per row — never a partial prefix. -/
theorem claim_C7_fatal_abort (widthOf : String → ℚ → ℚ) (inp : PipelineInput)
    (tpl : List ℚ) (fontOk decodeOk : Bool) (hT : inp.template = some tpl)
    (hR : inp.rows ≠ []) (hM : inp.mappings ≠ [])
    (hfail : fontOk = false ∨ decodeOk = false) :
    (generatePDFs widthOf inp fontOk decodeOk).outputs = [] ∧
    (generatePDFs widthOf inp fontOk decodeOk).alerted = true ∧
    (generatePDFs widthOf inp true true).outputs.length = inp.rows.length := by
  have hR2 : inp.rows.isEmpty = false := by simpa [List.isEmpty_iff] using hR
  have hM2 : inp.mappings.isEmpty = false := by simpa [List.isEmpty_iff] using hM
  have hall : (generatePDFs widthOf inp true true).outputs.length
      = inp.rows.length := by
    rw [generatePDFs_outputs_eq widthOf inp tpl hT hM, List.length_map]
  rcases hfail with hf | hd
  · subst hf
    refine ⟨?_, ?_, hall⟩ <;> simp [generatePDFs, hT, hR2, hM2]
  · subst hd
    cases fontOk with
    | false => refine ⟨?_, ?_, hall⟩ <;> simp [generatePDFs, hT, hR2, hM2]
    | true => refine ⟨?_, ?_, hall⟩ <;> simp [generatePDFs, hT, hR2, hM2]

/-- C7 witness: the demonstration input with a failing font fetch. -/
theorem claim_C7_witness :
    inpDemo.template = some [800] ∧ inpDemo.rows ≠ [] ∧ inpDemo.mappings ≠ [] ∧
    ((false : Bool) = false ∨ (true : Bool) = false) ∧
    ((generatePDFs widthDemo inpDemo false true).outputs = [] ∧
     (generatePDFs widthDemo inpDemo false true).alerted = true ∧
     (generatePDFs widthDemo inpDemo true true).outputs.length
        = inpDemo.rows.length) :=
  ⟨rfl, by simp [inpDemo], by simp [inpDemo], Or.inl rfl,
    claim_C7_fatal_abort widthDemo inpDemo [800] false true rfl
      (by simp [inpDemo]) (by simp [inpDemo]) (Or.inl rfl)⟩

/-- C8 counterexample: at pointer x = 1 with scale 3/2 the stored document
coordinate is round(2/3) = 1 and mapping it back gives 3/2, which differs
from the original 1 by exactly 1/2 — the embedding computes with exact
rationals, so this deviation is the rounding in the converter itself, not
floating rounding, and the round-trip law as stated fails. -/
theorem claim_C8_counterexample :
    toDocumentCoord 1 (3/2) = 1 ∧
    toRasterCoord ((toDocumentCoord 1 (3/2) : Int) : ℚ) (3/2) = 3/2 ∧
    toRasterCoord ((toDocumentCoord 1 (3/2) : Int) : ℚ) (3/2) ≠ 1 ∧
    |toRasterCoord ((toDocumentCoord 1 (3/2) : Int) : ℚ) (3/2) - 1| = 1/2 := by
  have h1 : toDocumentCoord 1 (3/2) = 1 := by
    norm_num [toDocumentCoord, round_eq]
  refine ⟨h1, ?_, ?_, ?_⟩ <;> rw [h1] <;> norm_num [toRasterCoord]

/-- C8 (amended): the converter rounds to the nearest integer document
coordinate, so for every pointer coordinate p and scale s > 0 the raster →
document → raster trip lands within s/2 of the original, is exact whenever
p is an integer multiple of s, and the document → raster → document trip is
exact on the integer coordinates the mapper stores. -/
theorem claim_C8_roundtrip (p s : ℚ) (hs : 0 < s) :
    |toRasterCoord ((toDocumentCoord p s : Int) : ℚ) s - p| ≤ s / 2 ∧
    (∀ n : Int, p = (n : ℚ) * s →
      toRasterCoord ((toDocumentCoord p s : Int) : ℚ) s = p) ∧
    (∀ n : Int, toDocumentCoord (toRasterCoord (n : ℚ) s) s = n) := by
  have hs0 : s ≠ 0 := ne_of_gt hs
  refine ⟨?_, ?_, ?_⟩
  · unfold toRasterCoord toDocumentCoord
    have h1 : ((round (p / s) : Int) : ℚ) * s - p
        = (((round (p / s) : Int) : ℚ) - p / s) * s := by
      rw [sub_mul, div_mul_cancel₀ p hs0]
    rw [h1, abs_mul, abs_of_pos hs]
    have h2 : |((round (p / s) : Int) : ℚ) - p / s| ≤ 1 / 2 := by
      rw [abs_sub_comm]
      exact abs_sub_round (p / s)
    calc |((round (p / s) : Int) : ℚ) - p / s| * s ≤ 1 / 2 * s :=
          mul_le_mul_of_nonneg_right h2 (le_of_lt hs)
      _ = s / 2 := by ring
  · intro n hn
    subst hn
    unfold toRasterCoord toDocumentCoord
    rw [mul_div_cancel_right₀ ((n : ℚ)) hs0, round_intCast]
  · intro n
    unfold toRasterCoord toDocumentCoord
    rw [mul_div_cancel_right₀ ((n : ℚ)) hs0, round_intCast]

/-- C8 witness: pointer coordinate 3 at scale 2. -/
theorem claim_C8_witness :
    (0 : ℚ) < 2 ∧
    (|toRasterCoord ((toDocumentCoord 3 2 : Int) : ℚ) 2 - 3| ≤ 2 / 2 ∧
     (∀ n : Int, (3 : ℚ) = (n : ℚ) * 2 →
        toRasterCoord ((toDocumentCoord 3 2 : Int) : ℚ) 2 = 3) ∧
     (∀ n : Int, toDocumentCoord (toRasterCoord (n : ℚ) 2) 2 = n)) :=
  ⟨by norm_num, claim_C8_roundtrip 3 2 (by norm_num)⟩

end PdfMapper
